import Mathlib

/-!
Verification of the template-rendering engine specified for the
ninja_examples repository, together with a model of the embedded
hello.py CLI example.

The repository ships templates, notebook examples and a document quoting
hello.py, but the template engine itself has no source file; following the
specification, the engine (context values, node tree, path resolution,
truthiness, Parse and Render) is modelled here directly from the spec text.
The hello.py CLI (test, setup_logger, main, log_buffer) is modelled from
the code quoted in the repository document.
-/

namespace Ninja

/-- Modelled from the spec: a Scalar context value
(string / number / boolean / null). The engine source is missing from the
repository; the spec lists exactly these scalar kinds. -/
inductive Scalar where
  | str : String → Scalar
  | num : Int → Scalar
  | bool : Bool → Scalar
  | null : Scalar
deriving Repr, DecidableEq

/-- Modelled from the spec: a Context Value is recursively a Scalar, a
Sequence (ordered list) or a Mapping (string key to value). A Mapping is
kept as an association list in insertion order, first binding wins. -/
inductive Value where
  | scalar : Scalar → Value
  | seq : List Value → Value
  | map : List (String × Value) → Value
deriving Repr

/-- Modelled from the spec: the string form of a scalar used when a
Reference renders. Null renders as the empty string. -/
def Scalar.toStr : Scalar → String
  | .str s => s
  | .num n => toString n
  | .bool b => if b then "true" else "false"
  | .null => ""

/-- Modelled from the spec: a Template Node — Literal, Reference (dotted
path, stored split on the dots), Loop (declared variables, collection
path, body) and Conditional (condition path, body). -/
inductive Node where
  | lit : String → Node
  | ref : List String → Node
  | loop : List String → List String → List Node → Node
  | cond : List String → List Node → Node
deriving Repr

/-- Lookup of a key in a Mapping association list; the first (earliest
inserted) binding for the key wins. -/
def lookupKey : List (String × Value) → String → Option Value
  | [], _ => none
  | e :: rest, k => if e.1 = k then some e.2 else lookupKey rest k

/-- Modelled from the spec: walking the remaining path segments inside a
value; resolution fails if an intermediate value is not a Mapping or the
key is absent. -/
def walk : Value → List String → Option Value
  | v, [] => some v
  | Value.map m, k :: rest =>
      match lookupKey m k with
      | some v => walk v rest
      | none => none
  | _, _ :: _ => none

/-- Modelled from the spec: path resolution against the scope stack.
The first path segment is looked up innermost-layer first, falling back
to enclosing layers and finally the root context (the last layer); the
remaining segments are walked inside the found value. -/
def resolve : List (List (String × Value)) → List String → Option Value
  | _, [] => none
  | [], _ :: _ => none
  | layer :: outer, k :: rest =>
      match lookupKey layer k with
      | some v => walk v rest
      | none => resolve outer (k :: rest)

/-- Modelled from the spec: the truthiness rule — null, absent (handled
at the call site as `none`), empty sequence, empty mapping, empty string,
zero and false are falsy; everything else is truthy. -/
def truthy : Option Value → Bool
  | none => false
  | some (Value.scalar Scalar.null) => false
  | some (Value.scalar (Scalar.bool b)) => b
  | some (Value.scalar (Scalar.num n)) => !(n == 0)
  | some (Value.scalar (Scalar.str s)) => !(s == "")
  | some (Value.seq l) => !(l.isEmpty)
  | some (Value.map m) => !(m.isEmpty)

/-- Modelled from the spec: the scope layer a sequence Loop pushes for one
element — the (first) declared loop variable bound to the element. -/
def bindSeqVar (vars : List String) (x : Value) : List (String × Value) :=
  match vars with
  | [] => []
  | v :: _ => [(v, x)]

/-- Modelled from the spec: the scope layer a mapping Loop pushes for one
entry — with two declared variables the first is bound to the key and the
second to the value. -/
def bindMapVar (vars : List String) (k : String) (v : Value) :
    List (String × Value) :=
  match vars with
  | [a, b] => [(a, Value.scalar (Scalar.str k)), (b, v)]
  | [a] => [(a, Value.scalar (Scalar.str k))]
  | _ => []

mutual

/-- Modelled from the spec: Render of a single node against a scope
stack. A Reference that fails to resolve (or resolves to a non-scalar)
renders as the empty string; a Loop over a Sequence or Mapping renders the
body per element with a fresh scope layer; a Loop whose path fails or
yields a Scalar runs zero times; a Conditional renders its body only when
the resolved value is truthy. -/
def renderNode (st : List (List (String × Value))) : Node → String
  | Node.lit s => s
  | Node.ref p =>
      match resolve st p with
      | some (Value.scalar s) => s.toStr
      | _ => ""
  | Node.loop vars path body =>
      match resolve st path with
      | some (Value.seq xs) => renderLoopSeq vars body st xs
      | some (Value.map m) => renderLoopMap vars body st m
      | _ => ""
  | Node.cond path body =>
      if truthy (resolve st path) then renderNodes st body else ""
termination_by n => (sizeOf n, 0)

/-- Modelled from the spec: Render of a node sequence, in order, results
concatenated. -/
def renderNodes (st : List (List (String × Value))) : List Node → String
  | [] => ""
  | n :: ns => renderNode st n ++ renderNodes st ns
termination_by ns => (sizeOf ns, 0)

/-- Modelled from the spec: a Loop over a Sequence renders the body once
per element in order, each time with a new scope layer binding the loop
variable to the element; the layer is popped on exit (the outer stack is
reused unchanged for the next element and after the loop). -/
def renderLoopSeq (vars : List String) (body : List Node)
    (st : List (List (String × Value))) : List Value → String
  | [] => ""
  | x :: xs =>
      renderNodes (bindSeqVar vars x :: st) body ++
        renderLoopSeq vars body st xs
termination_by xs => (sizeOf body, xs.length + 1)

/-- Modelled from the spec: a Loop over a Mapping renders the body once
per entry in insertion order, binding key and value per `bindMapVar`. -/
def renderLoopMap (vars : List String) (body : List Node)
    (st : List (List (String × Value))) : List (String × Value) → String
  | [] => ""
  | e :: es =>
      renderNodes (bindMapVar vars e.1 e.2 :: st) body ++
        renderLoopMap vars body st es
termination_by es => (sizeOf body, es.length + 1)

end

/-- Modelled from the spec: Render of a parsed node sequence against a
root context (a Mapping), with the scope stack initialised to hold just
the root context. -/
def render (nodes : List Node) (root : List (String × Value)) : String :=
  renderNodes [root] nodes

/-- The opening-brace character of the fixed delimiters. -/
def lbrace : Char := Char.ofNat 123

/-- The closing-brace character of the fixed delimiters. -/
def rbrace : Char := Char.ofNat 125

/-- The percent character of the fixed block delimiters. -/
def percent : Char := Char.ofNat 37

/-- Modelled from the spec: the raw pieces Parse splits the template text
into — literal runs, reference expressions and block directives. -/
inductive Token where
  | text : String → Token
  | ref : String → Token
  | dir : String → Token
deriving Repr, DecidableEq

/-- Scanner mode: inside a literal run, a reference or a directive. -/
inductive TokMode where
  | text
  | ref
  | dir
deriving Repr

/-- Modelled from the spec: the scanner splitting template text on the
fixed delimiters; `acc` holds the characters of the current piece. An
unterminated reference or directive is a syntax error (`none`). -/
def tokAux : TokMode → List Char → List Char → Option (List Token)
  | .text, acc, [] => some [Token.text (String.mk acc)]
  | .text, acc, [c] => some [Token.text (String.mk (acc ++ [c]))]
  | .text, acc, c :: c2 :: cs2 =>
      if c = lbrace then
        if c2 = lbrace then
          (tokAux .ref [] cs2).map
            (fun ts => Token.text (String.mk acc) :: ts)
        else if c2 = percent then
          (tokAux .dir [] cs2).map
            (fun ts => Token.text (String.mk acc) :: ts)
        else tokAux .text (acc ++ [c]) (c2 :: cs2)
      else tokAux .text (acc ++ [c]) (c2 :: cs2)
  | .ref, _acc, [] => none
  | .ref, _acc, [_] => none
  | .ref, acc, c :: c2 :: cs2 =>
      if c = rbrace then
        if c2 = rbrace then
          (tokAux .text [] cs2).map
            (fun ts => Token.ref (String.mk acc) :: ts)
        else tokAux .ref (acc ++ [c]) (c2 :: cs2)
      else tokAux .ref (acc ++ [c]) (c2 :: cs2)
  | .dir, _acc, [] => none
  | .dir, _acc, [_] => none
  | .dir, acc, c :: c2 :: cs2 =>
      if c = percent then
        if c2 = rbrace then
          (tokAux .text [] cs2).map
            (fun ts => Token.dir (String.mk acc) :: ts)
        else tokAux .dir (acc ++ [c]) (c2 :: cs2)
      else tokAux .dir (acc ++ [c]) (c2 :: cs2)
/-- Modelled from the spec: splitting the whole template text into
tokens. -/
def tokenize (t : String) : Option (List Token) :=
  tokAux TokMode.text [] t.data

/-- Whether a character counts as whitespace when a directive body is
split into words. -/
def isWs (c : Char) : Bool :=
  c == ' ' || c == '\n' || c == '\t' || c == '\r'

/-- Splits a character list into whitespace-separated words; `acc` holds
the characters of the current word. -/
def wordsAux : List Char → List Char → List String
  | acc, [] => if acc = [] then [] else [String.mk acc]
  | acc, c :: cs =>
      if isWs c then
        if acc = [] then wordsAux [] cs
        else String.mk acc :: wordsAux [] cs
      else wordsAux (acc ++ [c]) cs

/-- The whitespace-separated words of a string. -/
def wordsOf (s : String) : List String :=
  wordsAux [] s.data

/-- Splits a character list on a separator character. -/
def splitCharAux (sep : Char) : List Char → List Char → List String
  | acc, [] => [String.mk acc]
  | acc, c :: cs =>
      if c = sep then String.mk acc :: splitCharAux sep [] cs
      else splitCharAux sep (acc ++ [c]) cs

/-- Modelled from the spec: a dotted path split on the dots; a trailing
`items()` segment (mapping iteration in the examples) is dropped, the
path then resolving to the Mapping itself. -/
def parsePath (s : String) : List String :=
  let segs := splitCharAux '.' [] s.data
  if segs.getLast? = some "items()" then segs.dropLast else segs

/-- A reference expression with all whitespace removed, ready for
`parsePath`. -/
def stripWs (s : String) : String :=
  String.mk (s.data.filter (fun c => !(isWs c)))

/-- Splits the words of a `for` directive at the `in` keyword; `none`
when no `in` occurs. -/
def splitAtIn : List String → Option (List String × List String)
  | [] => none
  | w :: rest =>
      if w = "in" then some ([], rest)
      else
        match splitAtIn rest with
        | some (a, b) => some (w :: a, b)
        | none => none

/-- The comma-separated loop-variable names declared before `in`. -/
def parseVars (ws : List String) : List String :=
  (splitCharAux ',' [] (String.join ws).data).filter (fun v => v ≠ "")

/-- Modelled from the spec: the recognised directives — opening a loop,
opening a conditional, and the two closers. -/
inductive Dir where
  | openFor : List String → List String → Dir
  | openIf : List String → Dir
  | closeFor : Dir
  | closeIf : Dir
deriving Repr

/-- Modelled from the spec: classification of one directive body; a
malformed or unknown directive yields `none` (a SyntaxError). -/
def parseDir (s : String) : Option Dir :=
  let ws := wordsOf s
  match ws with
  | ["endfor"] => some Dir.closeFor
  | ["endif"] => some Dir.closeIf
  | ["if", p] => some (Dir.openIf (parsePath p))
  | "for" :: rest =>
      match splitAtIn rest with
      | some (vws, [p]) =>
          let vars := parseVars vws
          if vars = [] then none else some (Dir.openFor vars (parsePath p))
      | _ => none
  | _ => none

/-- An open block on the parser stack: a `for` header or an `if`
header. -/
inductive Frame where
  | forF : List String → List String → Frame
  | ifF : List String → Frame
deriving Repr

/-- Modelled from the spec: the explicit-stack parser over the token
list. Each stack entry pairs an open block with the nodes accumulated
before it opened; `acc` holds the current block body in reverse. A closer
not matching the most recently opened block, or leftover open blocks at
the end of input, is a SyntaxError (`none`): no partial tree is
returned. -/
def parseTokens :
    List Token → List (Frame × List Node) → List Node → Option (List Node)
  | [], [], acc => some acc.reverse
  | [], _f :: _stk, _acc => none
  | Token.text s :: rest, stk, acc => parseTokens rest stk (Node.lit s :: acc)
  | Token.ref e :: rest, stk, acc =>
      parseTokens rest stk (Node.ref (parsePath (stripWs e)) :: acc)
  | Token.dir d :: rest, stk, acc =>
      match parseDir d with
      | some (Dir.openFor vars path) =>
          parseTokens rest ((Frame.forF vars path, acc) :: stk) []
      | some (Dir.openIf path) =>
          parseTokens rest ((Frame.ifF path, acc) :: stk) []
      | some Dir.closeFor =>
          match stk with
          | (Frame.forF vars path, outerAcc) :: stk2 =>
              parseTokens rest stk2 (Node.loop vars path acc.reverse :: outerAcc)
          | _ => none
      | some Dir.closeIf =>
          match stk with
          | (Frame.ifF path, outerAcc) :: stk2 =>
              parseTokens rest stk2 (Node.cond path acc.reverse :: outerAcc)
          | _ => none
      | none => none

/-- Modelled from the spec: Parse — tokenize then build the node tree;
`none` is the SyntaxError outcome, with no partial tree. -/
def parse (t : String) : Option (List Node) :=
  match tokenize t with
  | some ts => parseTokens ts [] []
  | none => none

/-- A character list containing no `\x7b\x7b` and no `\x7b%` directive
marker (the delimiter openers); such text is a pure literal to the
scanner. -/
def markerFree : List Char → Bool
  | [] => true
  | [_] => true
  | a :: b :: cs =>
      (!((a == lbrace) && ((b == lbrace) || (b == percent)))) &&
        markerFree (b :: cs)

/-- Concatenation of the images of a list under a string-valued
function, in list order: the shape of the output of a loop. -/
def joinMap (f : α → String) : List α → String
  | [] => ""
  | x :: xs => f x ++ joinMap f xs

/-- The skills template of the spec scenario:
`\x7b% for skill in employee.skills %\x7d` newline `- \x7b\x7b skill \x7d\x7d`
newline `\x7b% endfor %\x7d`. -/
def tplSkills : String :=
  "\x7b% for skill in employee.skills %\x7d\n- \x7b\x7b skill \x7d\x7d\n\x7b% endfor %\x7d"

/-- The skills context of the spec scenario:
employee.skills = [Python, Java, SQL]. -/
def ctxSkills : List (String × Value) :=
  [("employee", Value.map
      [("skills", Value.seq
          [Value.scalar (Scalar.str "Python"),
           Value.scalar (Scalar.str "Java"),
           Value.scalar (Scalar.str "SQL")])])]

/-- The departments template of the repository example, reduced to its
mapping loop: iterate (department, department_data) over
company.departments.items(). -/
def tplDepartments : String :=
  "\x7b% for department, department_data in company.departments.items() %\x7dDepartment: \x7b\x7b department \x7d\x7d\n\x7b% endfor %\x7d"

/-- A two-entry departments context in insertion order IT then HR. -/
def ctxDepartments : List (String × Value) :=
  [("company", Value.map
      [("departments", Value.map
          [("IT", Value.map [("head", Value.scalar (Scalar.str "Alice"))]),
           ("HR", Value.map [("head", Value.scalar (Scalar.str "Charlie"))])])])]

/-- The unbalanced template of the spec scenario: a for block that is
never closed. -/
def tplUnclosedFor : String :=
  "\x7b% for skill in employee.skills %\x7d\n- \x7b\x7b skill \x7d\x7d\n"

/-- A template whose closing directives do not match the most recently
opened blocks: if - for - endif - endfor. -/
def tplMismatch : String :=
  "\x7b% if a %\x7d\x7b% for x in y %\x7d\x7b% endif %\x7d\x7b% endfor %\x7d"

/-- A context for the nested-loop shadowing scenario: three sequences to
iterate. -/
def nestedShadowCtx : List (String × Value) :=
  [("outerxs", Value.seq
      [Value.scalar (Scalar.str "A"), Value.scalar (Scalar.str "B")]),
   ("ys", Value.seq [Value.scalar (Scalar.str "Y")]),
   ("innerxs", Value.seq [Value.scalar (Scalar.str "i")])]

/-- Nested loops where the inner loop variable `x` shadows the outer
loop variable `x` only inside the inner body, the outer binding `y`
stays visible inside the inner loop, and after the inner loop the outer
`x` is referenced again. -/
def nestedShadowNodes : List Node :=
  [Node.loop ["y"] ["ys"]
    [Node.loop ["x"] ["outerxs"]
      [Node.ref ["x"],
       Node.loop ["x"] ["innerxs"] [Node.ref ["x"], Node.ref ["y"]],
       Node.ref ["x"]]]]

end Ninja

namespace Hello

/-- One registered loguru sink of hello.py: the module-level StringIO
buffer, or stderr at level ERROR. -/
inductive Sink where
  | buffer
  | stderr
deriving Repr, DecidableEq

/-- The process state of hello.py: the contents of the module-level
`log_buffer` StringIO and the list of currently registered sinks. -/
structure LogState where
  buffer : String
  sinks : List Sink
deriving Repr, DecidableEq

/-- Python setup_logger: `logger.remove()` deletes every previously
registered sink, then the buffer sink (format `\x7bmessage\x7d`) and the
stderr sink (level ERROR) are added — so the registered sinks after the
call never depend on how often it ran before. -/
def setup_logger (st : LogState) : LogState :=
  { st with sinks := [Sink.buffer, Sink.stderr] }

/-- The string `s` repeated `n` times, concatenated. -/
def repeatStr (s : String) : Nat → String
  | 0 => ""
  | n + 1 => s ++ repeatStr s n

/-- Logging one message: the message plus newline is appended to the
shared buffer once per registered buffer sink (loguru delivers a record
to every sink independently). -/
def emit (st : LogState) (msg : String) : LogState :=
  { st with
      buffer := st.buffer ++ repeatStr (msg ++ "\n") (st.sinks.count Sink.buffer) }

/-- Python test(x): returns `50 / x`, raising ZeroDivisionError when `x` is
zero; the raise is modelled as `Except.error`. Python floats are
modelled as exact rationals — only the zeroness of `x` decides the
control flow. -/
def test (x : ℚ) : Except Unit ℚ :=
  if x = 0 then Except.error () else Except.ok (50 / x)

/-- Python main: run `setup_logger`, compute `test x`; on success log
`Result: ...` at INFO and exit 0, on ZeroDivisionError log
`Error: Division by zero` and `sys.exit(1)`. The exception is consumed
inside `main` (the function is total — it always returns a state and an
exit code). -/
def main (st : LogState) (x : ℚ) : LogState × Nat :=
  let st1 := setup_logger st
  match test x with
  | Except.ok r => (emit st1 ("Result: " ++ toString r), 0)
  | Except.error _ => (emit st1 "Error: Division by zero", 1)

/-- The single message one invocation of `main` logs. -/
def mainMsg (x : ℚ) : String :=
  if x = 0 then "Error: Division by zero" else "Result: " ++ toString (50 / x)

/-- The autouse test fixture clear_log_buffer: seek(0) plus truncate(0)
empties the shared buffer; sinks are untouched. -/
def clear_log_buffer (st : LogState) : LogState :=
  { st with buffer := "" }

end Hello

open Ninja Hello

/-- A sequence loop unfolds to the concatenation, in element order, of
the body rendered once per element with the loop variable bound. -/
theorem renderLoopSeq_eq_joinMap (vars : List String) (body : List Node)
    (st : List (List (String × Value))) (xs : List Value) :
    renderLoopSeq vars body st xs =
      joinMap (fun x => renderNodes (bindSeqVar vars x :: st) body) xs := by
  induction xs with
  | nil => simp [renderLoopSeq, joinMap]
  | cons x xs ih => simp [renderLoopSeq, joinMap, ih]

/-- A mapping loop unfolds to the concatenation, in insertion order, of
the body rendered once per entry with key and value bound. -/
theorem renderLoopMap_eq_joinMap (vars : List String) (body : List Node)
    (st : List (List (String × Value))) (m : List (String × Value)) :
    renderLoopMap vars body st m =
      joinMap (fun e => renderNodes (bindMapVar vars e.1 e.2 :: st) body) m := by
  induction m with
  | nil => simp [renderLoopMap, joinMap]
  | cons e m ih => simp [renderLoopMap, joinMap, ih]

/-- C1: a Reference whose path resolves to a Scalar renders the string
form of that scalar at its position; a Reference whose path fails to
resolve renders the empty string; in both cases rendering continues with
the following nodes — no error is possible, `renderNode` is total. -/
theorem reference_scalar_or_silent_miss
    (st : List (List (String × Value))) (p : List String) :
    (∀ s : Scalar, resolve st p = some (Value.scalar s) →
        renderNode st (Node.ref p) = Scalar.toStr s) ∧
    (resolve st p = none → renderNode st (Node.ref p) = "") ∧
    (∀ ns : List Node, renderNodes st (Node.ref p :: ns) =
        renderNode st (Node.ref p) ++ renderNodes st ns) := by
  refine ⟨?_, ?_, ?_⟩
  · intro s h; simp [renderNode, h]
  · intro h; simp [renderNode, h]
  · intro ns; simp [renderNodes]

/-- Witness for C1 at the notebook example: person.name renders as
John, an absent person.address renders as the empty string. -/
theorem reference_scalar_or_silent_miss_witness :
    renderNode [[("person", Value.map [("name", Value.scalar (Scalar.str "John"))])]]
        (Node.ref ["person", "name"]) = "John" ∧
    renderNode [[("person", Value.map [("name", Value.scalar (Scalar.str "John"))])]]
        (Node.ref ["person", "address"]) = "" :=
  ⟨(reference_scalar_or_silent_miss
      [[("person", Value.map [("name", Value.scalar (Scalar.str "John"))])]]
      ["person", "name"]).1 (Scalar.str "John") rfl,
   (reference_scalar_or_silent_miss
      [[("person", Value.map [("name", Value.scalar (Scalar.str "John"))])]]
      ["person", "address"]).2.1 rfl⟩

/-- C3: a Loop whose collection path resolves to a Sequence of length N
renders its body exactly once per element, in element order, with the
loop variable bound to the current element; moreover the skills spec
scenario renders its three lines in list order. -/
theorem loop_sequence_renders_per_element :
    (∀ (st : List (List (String × Value))) (vars path : List String)
        (body : List Node) (xs : List Value),
        resolve st path = some (Value.seq xs) →
        renderNode st (Node.loop vars path body) =
          joinMap (fun x => renderNodes (bindSeqVar vars x :: st) body) xs) ∧
    (parse tplSkills).map (fun ns => render ns ctxSkills) =
      some "\n- Python\n\n- Java\n\n- SQL\n" := by
  constructor
  · intro st vars path body xs h
    simp [renderNode, h, renderLoopSeq_eq_joinMap]
  · have hp : parse tplSkills = some [Node.lit "",
        Node.loop ["skill"] ["employee", "skills"]
          [Node.lit "\n- ", Node.ref ["skill"], Node.lit "\n"],
        Node.lit ""] := rfl
    rw [hp]
    simp [render, renderNodes, renderNode, renderLoopSeq, resolve,
      lookupKey, walk, bindSeqVar, Scalar.toStr, ctxSkills]

/-- Witness for C3: the three-element skills sequence renders the body
three times in list order. -/
theorem loop_sequence_renders_per_element_witness :
    renderNode [ctxSkills]
        (Node.loop ["skill"] ["employee", "skills"]
          [Node.ref ["skill"], Node.lit ";"]) = "Python;Java;SQL;" := by
  have h := loop_sequence_renders_per_element.1 [ctxSkills] ["skill"]
    ["employee", "skills"] [Node.ref ["skill"], Node.lit ";"]
    [Value.scalar (Scalar.str "Python"), Value.scalar (Scalar.str "Java"),
     Value.scalar (Scalar.str "SQL")] rfl
  rw [h]
  simp [joinMap, renderNodes, renderNode, resolve, lookupKey, walk,
    bindSeqVar, Scalar.toStr, ctxSkills]

/-- C4: a Loop with two declared variables whose collection path
resolves to a Mapping renders its body once per entry, in insertion
order, binding the first variable to the key (as a string scalar) and
the second to the value; moreover the departments example renders IT
then HR. -/
theorem loop_mapping_two_vars :
    (∀ (st : List (List (String × Value))) (kv vv : String)
        (path : List String) (body : List Node) (m : List (String × Value)),
        resolve st path = some (Value.map m) →
        renderNode st (Node.loop [kv, vv] path body) =
          joinMap (fun e =>
            renderNodes
              ([(kv, Value.scalar (Scalar.str e.1)), (vv, e.2)] :: st) body) m) ∧
    (parse tplDepartments).map (fun ns => render ns ctxDepartments) =
      some "Department: IT\nDepartment: HR\n" := by
  constructor
  · intro st kv vv path body m h
    simp [renderNode, h, renderLoopMap_eq_joinMap, bindMapVar]
  · have hp : parse tplDepartments = some [Node.lit "",
        Node.loop ["department", "department_data"] ["company", "departments"]
          [Node.lit "Department: ", Node.ref ["department"], Node.lit "\n"],
        Node.lit ""] := rfl
    rw [hp]
    simp [render, renderNodes, renderNode, renderLoopMap, resolve,
      lookupKey, walk, bindMapVar, Scalar.toStr, ctxDepartments]

/-- Witness for C4: a two-entry mapping loop binds key and value per
entry, in insertion order. -/
theorem loop_mapping_two_vars_witness :
    renderNode [[("m", Value.map
        [("a", Value.scalar (Scalar.str "1")),
         ("b", Value.scalar (Scalar.str "2"))])]]
      (Node.loop ["k", "v"] ["m"]
        [Node.ref ["k"], Node.lit "=", Node.ref ["v"], Node.lit ";"]) =
      "a=1;b=2;" := by
  have h := loop_mapping_two_vars.1
    [[("m", Value.map
        [("a", Value.scalar (Scalar.str "1")),
         ("b", Value.scalar (Scalar.str "2"))])]]
    "k" "v" ["m"]
    [Node.ref ["k"], Node.lit "=", Node.ref ["v"], Node.lit ";"]
    [("a", Value.scalar (Scalar.str "1")), ("b", Value.scalar (Scalar.str "2"))]
    rfl
  rw [h]
  simp [joinMap, renderNodes, renderNode, resolve, lookupKey, walk,
    Scalar.toStr]

/-- C5: a Conditional renders its body iff its condition path resolves
to a truthy value, contributing nothing otherwise; and the falsy values
are exactly: failed resolution, null, false, zero, the empty string, the
empty sequence and the empty mapping. -/
theorem conditional_renders_iff_truthy :
    (∀ (st : List (List (String × Value))) (p : List String)
        (body : List Node),
        renderNode st (Node.cond p body) =
          if truthy (resolve st p) then renderNodes st body else "") ∧
    (∀ ov : Option Value, truthy ov = false ↔
        (ov = none ∨ ov = some (Value.scalar Scalar.null) ∨
         ov = some (Value.scalar (Scalar.bool false)) ∨
         ov = some (Value.scalar (Scalar.num 0)) ∨
         ov = some (Value.scalar (Scalar.str "")) ∨
         ov = some (Value.seq []) ∨ ov = some (Value.map []))) := by
  constructor
  · intro st p body
    simp [renderNode]
  · intro ov
    match ov with
    | none => simp [truthy]
    | some (Value.scalar Scalar.null) => simp [truthy]
    | some (Value.scalar (Scalar.bool b)) => cases b <;> simp [truthy]
    | some (Value.scalar (Scalar.num n)) => simp [truthy]
    | some (Value.scalar (Scalar.str s)) => simp [truthy]
    | some (Value.seq l) => simp [truthy, List.isEmpty_iff]
    | some (Value.map m) => simp [truthy, List.isEmpty_iff]

/-- Witness for C5: a nonzero number renders the body, an empty sequence
renders nothing. -/
theorem conditional_renders_iff_truthy_witness :
    renderNode [[("a", Value.scalar (Scalar.num 1))]]
        (Node.cond ["a"] [Node.lit "yes"]) = "yes" ∧
    renderNode [[("b", Value.seq [])]]
        (Node.cond ["b"] [Node.lit "yes"]) = "" := by
  constructor
  · rw [conditional_renders_iff_truthy.1]
    simp [truthy, resolve, lookupKey, walk, renderNodes, renderNode]
  · rw [conditional_renders_iff_truthy.1]
    simp [truthy, resolve, lookupKey, walk]

/-- C6: scope discipline of loops. An inner layer binding a name shadows
any outer binding of the same name for the whole path lookup; a name not
bound in the inner layer falls through to the enclosing scopes, so outer
loop variables stay visible in inner loops; each loop iteration pushes
its layer only for that body (the surrounding stack is reused unchanged
afterwards, restoring the outer binding); and the concrete nested
template with both loop variables named x renders to AiYABiYB. -/
theorem loop_scope_shadowing :
    (∀ (layer : List (String × Value)) (st : List (List (String × Value)))
        (x : String) (p : List String) (v : Value),
        lookupKey layer x = some v →
        resolve (layer :: st) (x :: p) = walk v p) ∧
    (∀ (layer : List (String × Value)) (st : List (List (String × Value)))
        (x : String) (p : List String),
        lookupKey layer x = none →
        resolve (layer :: st) (x :: p) = resolve st (x :: p)) ∧
    (∀ (vars : List String) (body : List Node)
        (st : List (List (String × Value))) (x : Value) (xs : List Value),
        renderLoopSeq vars body st (x :: xs) =
          renderNodes (bindSeqVar vars x :: st) body ++
            renderLoopSeq vars body st xs) ∧
    (∀ (st : List (List (String × Value))) (n : Node) (ns : List Node),
        renderNodes st (n :: ns) = renderNode st n ++ renderNodes st ns) ∧
    render nestedShadowNodes nestedShadowCtx = "AiYABiYB" := by
  refine ⟨?_, ?_, ?_, ?_, ?_⟩
  · intro layer st x p v h; simp [resolve, h]
  · intro layer st x p h; simp [resolve, h]
  · intro vars body st x xs; simp [renderLoopSeq]
  · intro st n ns; simp [renderNodes]
  · simp [render, renderNodes, renderNode, renderLoopSeq, resolve,
      lookupKey, walk, bindSeqVar, Scalar.toStr, nestedShadowNodes,
      nestedShadowCtx]

/-- Witness for C6: with x bound in both layers the inner binding wins;
with y bound only in the outer layer the outer binding is found. -/
theorem loop_scope_shadowing_witness :
    resolve [[("x", Value.scalar (Scalar.str "inner"))],
             [("x", Value.scalar (Scalar.str "outer"))]] ["x"] =
      some (Value.scalar (Scalar.str "inner")) ∧
    resolve [[("x", Value.scalar (Scalar.str "inner"))],
             [("y", Value.scalar (Scalar.str "outer"))]] ["y"] =
      some (Value.scalar (Scalar.str "outer")) := by
  constructor
  · rw [loop_scope_shadowing.1 [("x", Value.scalar (Scalar.str "inner"))]
      [[("x", Value.scalar (Scalar.str "outer"))]] "x" []
      (Value.scalar (Scalar.str "inner")) rfl]
    rfl
  · rw [loop_scope_shadowing.2.1 [("x", Value.scalar (Scalar.str "inner"))]
      [[("y", Value.scalar (Scalar.str "outer"))]] "y" [] rfl]
    rfl

/-- C7: a Loop whose collection path fails to resolve, or resolves to a
Scalar, renders its body zero times and contributes the empty string,
and rendering continues with the nodes after the loop — no error is
possible, `renderNode` is total. -/
theorem loop_silent_miss (st : List (List (String × Value)))
    (vars path : List String) (body : List Node) :
    (resolve st path = none → renderNode st (Node.loop vars path body) = "") ∧
    (∀ s : Scalar, resolve st path = some (Value.scalar s) →
        renderNode st (Node.loop vars path body) = "") ∧
    (∀ ns : List Node, renderNodes st (Node.loop vars path body :: ns) =
        renderNode st (Node.loop vars path body) ++ renderNodes st ns) := by
  refine ⟨?_, ?_, ?_⟩
  · intro h; simp [renderNode, h]
  · intro s h; simp [renderNode, h]
  · intro ns; simp [renderNodes]

/-- Witness for C7: a loop over an absent path and a loop over a scalar
both render nothing. -/
theorem loop_silent_miss_witness :
    renderNode [[("a", Value.scalar (Scalar.str "x"))]]
        (Node.loop ["v"] ["zzz"] [Node.lit "body"]) = "" ∧
    renderNode [[("a", Value.scalar (Scalar.str "x"))]]
        (Node.loop ["v"] ["a"] [Node.lit "body"]) = "" :=
  ⟨(loop_silent_miss [[("a", Value.scalar (Scalar.str "x"))]] ["v"] ["zzz"]
      [Node.lit "body"]).1 rfl,
   (loop_silent_miss [[("a", Value.scalar (Scalar.str "x"))]] ["v"] ["a"]
      [Node.lit "body"]).2.1 (Scalar.str "x") rfl⟩

/-- C2: Parse fails with the SyntaxError outcome — returning no partial
tree — whenever a closing directive does not match the most recently
opened block (endfor against an open if, endif against an open for, or a
closer with no open block) or the token stream ends with open blocks
still on the stack; in particular the template with an unclosed for and
the interleaved if/for/endif/endfor template are both rejected. -/
theorem parse_rejects_unbalanced :
    (∀ (ts : List Token) (stk : List (Frame × List Node))
        (acc outerAcc : List Node) (path : List String),
        parseTokens (Token.dir "endfor" :: ts)
          ((Frame.ifF path, outerAcc) :: stk) acc = none) ∧
    (∀ (ts : List Token) (stk : List (Frame × List Node))
        (acc outerAcc : List Node) (vars path : List String),
        parseTokens (Token.dir "endif" :: ts)
          ((Frame.forF vars path, outerAcc) :: stk) acc = none) ∧
    (∀ (ts : List Token) (acc : List Node),
        parseTokens (Token.dir "endfor" :: ts) [] acc = none) ∧
    (∀ (ts : List Token) (acc : List Node),
        parseTokens (Token.dir "endif" :: ts) [] acc = none) ∧
    (∀ (f : Frame × List Node) (stk : List (Frame × List Node))
        (acc : List Node),
        parseTokens ([] : List Token) (f :: stk) acc = none) ∧
    parse tplUnclosedFor = none ∧
    parse tplMismatch = none :=
  ⟨fun _ _ _ _ _ => rfl, fun _ _ _ _ _ _ => rfl, fun _ _ => rfl,
   fun _ _ => rfl, fun _ _ _ => rfl, rfl, rfl⟩

/-- Every suffix of a marker-free character list is marker-free. -/
theorem markerFree_tail (a : Char) (cs : List Char)
    (h : markerFree (a :: cs) = true) : markerFree cs = true := by
  cases cs with
  | nil => rfl
  | cons b cs2 =>
      simp only [markerFree, Bool.and_eq_true] at h
      exact h.2

/-- On marker-free input the scanner in text mode produces a single
literal token carrying the accumulator followed by the input. -/
theorem tokAux_text_of_markerFree :
    ∀ (cs acc : List Char), markerFree cs = true →
      tokAux TokMode.text acc cs = some [Token.text (String.mk (acc ++ cs))] := by
  intro cs
  induction cs with
  | nil => intro acc _; simp [tokAux]
  | cons c cs ih =>
    intro acc h
    cases cs with
    | nil => simp [tokAux]
    | cons c2 cs2 =>
      simp only [markerFree, Bool.and_eq_true] at h
      obtain ⟨ha, h2⟩ := h
      rw [Bool.not_eq_true'] at ha
      by_cases hc : c = lbrace
      · rw [hc] at ha
        simp only [beq_self_eq_true, Bool.true_and, Bool.or_eq_false_iff] at ha
        obtain ⟨hb1, hb2⟩ := ha
        have hc2l : ¬(c2 = lbrace) := by
          intro hx; rw [hx] at hb1; simp at hb1
        have hc2p : ¬(c2 = percent) := by
          intro hx; rw [hx] at hb2; simp at hb2
        rw [show tokAux TokMode.text acc (c :: c2 :: cs2) =
            tokAux TokMode.text (acc ++ [c]) (c2 :: cs2) by
          simp [tokAux, hc, hc2l, hc2p]]
        rw [ih (acc ++ [c]) h2]
        simp
      · rw [show tokAux TokMode.text acc (c :: c2 :: cs2) =
            tokAux TokMode.text (acc ++ [c]) (c2 :: cs2) by
          simp [tokAux, hc]]
        rw [ih (acc ++ [c]) h2]
        simp

/-- C8: on a template containing no directive markers, Parse yields a
single literal node and Render returns the template unchanged for every
context — parsing followed by rendering is the identity on
directive-free templates. -/
theorem parse_render_identity_on_literal (t : String)
    (h : markerFree t.data = true) :
    parse t = some [Node.lit t] ∧
    ∀ root : List (String × Value), render [Node.lit t] root = t := by
  have htok : tokenize t = some [Token.text t] := by
    have h0 := tokAux_text_of_markerFree t.data [] h
    rw [List.nil_append] at h0
    exact h0
  constructor
  · simp [parse, htok, parseTokens]
  · intro root
    simp [render, renderNodes, renderNode, String.append_empty]

/-- Witness for C8: a concrete directive-free template passes through
untouched. -/
theorem parse_render_identity_on_literal_witness :
    parse "Name: John, Age: 30" = some [Node.lit "Name: John, Age: 30"] ∧
    render [Node.lit "Name: John, Age: 30"] [] = "Name: John, Age: 30" :=
  ⟨(parse_render_identity_on_literal "Name: John, Age: 30" (by decide)).1,
   (parse_render_identity_on_literal "Name: John, Age: 30" (by decide)).2 []⟩

/-- C9: invoking main with a nonzero x logs exactly the message
`Result: 50/x` (and a trailing newline) to the shared buffer and exits
with code 0; invoking it with x = 0 logs `Error: Division by zero` and
exits with code 1. `main` is a total function into a state and an exit
code, so the ZeroDivisionError raised by `test` never reaches the
caller. -/
theorem hello_main_exit_codes (st : LogState) (x : ℚ) :
    (x ≠ 0 →
      Hello.main st x =
        ({ buffer := st.buffer ++ ("Result: " ++ toString (50 / x) ++ "\n"),
           sinks := [Sink.buffer, Sink.stderr] }, 0)) ∧
    Hello.main st 0 =
      ({ buffer := st.buffer ++ "Error: Division by zero\n",
         sinks := [Sink.buffer, Sink.stderr] }, 1) := by
  constructor
  · intro hx
    simp [Hello.main, Hello.test, Hello.setup_logger, Hello.emit,
      Hello.repeatStr, hx, String.append_empty, String.append_assoc]
  · simp [Hello.main, Hello.test, Hello.setup_logger, Hello.emit,
      Hello.repeatStr, String.append_empty, String.append_assoc]

/-- Witness for C9: x = 2 logs Result: 25 and exits 0; x = 0 logs the
division-by-zero error and exits 1. -/
theorem hello_main_exit_codes_witness :
    Hello.main { buffer := "", sinks := [] } 2 =
      ({ buffer := "Result: 25\n", sinks := [Sink.buffer, Sink.stderr] }, 0) ∧
    Hello.main { buffer := "", sinks := [] } 0 =
      ({ buffer := "Error: Division by zero\n",
         sinks := [Sink.buffer, Sink.stderr] }, 1) := by
  constructor
  · have h := (hello_main_exit_codes { buffer := "", sinks := [] } 2).1
      (by norm_num)
    have h50 : (50 : ℚ) / 2 = 25 := by norm_num
    rw [h, h50]
    rfl
  · have h := (hello_main_exit_codes { buffer := "", sinks := [] } 0).2
    rw [h]
    rfl

/-- C10: the log buffer is one shared piece of state threaded through
every invocation of main. `setup_logger` replaces whatever sinks were
registered by exactly one buffer sink and one stderr sink, so one
invocation appends its message exactly once; the previous buffer
contents survive as a prefix, and a second invocation appends after
them; only the clear_log_buffer fixture empties the buffer (leaving the
sinks alone). -/
theorem hello_log_buffer_shared (st : LogState) (x y : ℚ) :
    (Hello.setup_logger st).sinks = [Sink.buffer, Sink.stderr] ∧
    (Hello.main st x).1.buffer = st.buffer ++ (Hello.mainMsg x ++ "\n") ∧
    (Hello.main st x).1.sinks.count Sink.buffer = 1 ∧
    (Hello.main (Hello.main st x).1 y).1.buffer =
      st.buffer ++ (Hello.mainMsg x ++ "\n") ++ (Hello.mainMsg y ++ "\n") ∧
    Hello.clear_log_buffer st = { buffer := "", sinks := st.sinks } := by
  have hbuf : ∀ (s : LogState) (z : ℚ),
      (Hello.main s z).1.buffer = s.buffer ++ (Hello.mainMsg z ++ "\n") := by
    intro s z
    by_cases hz : z = 0
    · subst hz
      simp [Hello.main, Hello.test, Hello.setup_logger, Hello.emit,
        Hello.repeatStr, Hello.mainMsg, String.append_empty,
        String.append_assoc]
    · simp [Hello.main, Hello.test, Hello.setup_logger, Hello.emit,
        Hello.repeatStr, Hello.mainMsg, hz, String.append_empty,
        String.append_assoc]
  have hsinks : ∀ (s : LogState) (z : ℚ),
      (Hello.main s z).1.sinks = [Sink.buffer, Sink.stderr] := by
    intro s z
    by_cases hz : z = 0
    · subst hz
      simp [Hello.main, Hello.test, Hello.setup_logger, Hello.emit]
    · simp [Hello.main, Hello.test, Hello.setup_logger, Hello.emit, hz]
  refine ⟨rfl, hbuf st x, ?_, ?_, rfl⟩
  · rw [hsinks st x]
    rfl
  · rw [hbuf (Hello.main st x).1 y, hbuf st x, String.append_assoc]
